import Mathlib

/-!
Verification of the Medicheck coordination core against its specification.

Shallow embedding of the Python sources under
`medicheck-pro-enterprise/operations/` and `medicheck-pro-enterprise/protocols/`:

* `pause_resume.py`   — operation lifecycle and medical pause gating
* `state_machine.py`  — guarded medical process state machine
* `workflow_engine.py`— dependency-driven task scheduler
* `message_bus.py`    — pub/sub bus, request/reply, audit log

Python dictionaries are modelled as association lists (first match wins for
lookup, in-place overwrite for update), `datetime.now()` as an explicitly
passed `Nat` clock, uuid generation as explicitly passed fresh strings, and
user-supplied callables as their outcome (`Except`) or as Lean functions.
-/

/-! ## pause_resume.py -/

/-- `OperationStatus` enum from pause_resume.py. -/
inductive OperationStatus
  | pending
  | running
  | paused
  | completed
  | failed
  | cancelled
deriving DecidableEq

/-- `OperationState` from pause_resume.py.  The target callable is not part of
the modelled state: its behaviour enters `executeOperationBody` as an
`Except` outcome.  `progress` is the float progress fraction; the code only
ever assigns `0.0` and `1.0`, modelled exactly in `Rat`. -/
structure OperationState where
  operation_id : String
  name : String
  status : OperationStatus
  created_at : Nat
  started_at : Option Nat
  paused_at : Option Nat
  completed_at : Option Nat
  result : Option String
  error : Option String
  progress : Rat
  metadata : List (String × String)
deriving DecidableEq

/-- The manager's `self.operations` dict, id → operation. -/
abbrev OperationsMap := List (String × OperationState)

/-- Python dict assignment `self.operations[id] = op` when the key exists. -/
def opsUpdate (ops : OperationsMap) (id : String) (v : OperationState) : OperationsMap :=
  ops.map (fun p => if p.1 = id then (id, v) else p)

/-- Body of `PauseResumeManager._execute_operation` after the target callable
finishes: on normal return set result/progress/status/completed_at, on an
exception set error/status.  It does not consult `op.status`. -/
def executeOperationBody (op : OperationState) (outcome : Except String String)
    (now : Nat) : OperationState :=
  match outcome with
  | Except.ok r =>
      { op with result := some r, progress := 1, status := OperationStatus.completed,
                completed_at := some now }
  | Except.error e =>
      { op with error := some e, status := OperationStatus.failed }

/-- `PauseResumeManager.pause_operation`. -/
def pause_operation (ops : OperationsMap) (id : String) (now : Nat) :
    Bool × OperationsMap :=
  match ops.lookup id with
  | none => (false, ops)
  | some op =>
    if op.status = OperationStatus.running then
      (true, opsUpdate ops id { op with status := OperationStatus.paused, paused_at := some now })
    else (false, ops)

/-- `PauseResumeManager.cancel_operation`. -/
def cancel_operation (ops : OperationsMap) (id : String) (now : Nat) :
    Bool × OperationsMap :=
  match ops.lookup id with
  | none => (false, ops)
  | some op =>
    if op.status = OperationStatus.completed ∨ op.status = OperationStatus.failed ∨
        op.status = OperationStatus.cancelled then
      (false, ops)
    else
      (true, opsUpdate ops id { op with status := OperationStatus.cancelled, completed_at := some now })

/-- The critical `operation_type` disallow-list in
`MedicalPauseResumeManager.pause_medical_operation`. -/
def criticalTypes : List String :=
  ["emergency_procedure", "life_support", "critical_monitoring"]

/-- `MedicalPauseResumeManager.pause_medical_operation`: reject critical
operations before delegating to `pause_operation`. -/
def pause_medical_operation (ops : OperationsMap) (id : String) (now : Nat) :
    Bool × OperationsMap :=
  match ops.lookup id with
  | none => (false, ops)
  | some op =>
    let is_critical :=
      match op.metadata.lookup "operation_type" with
      | some t => criticalTypes.contains t
      | none => false
    if is_critical then (false, ops)
    else pause_operation ops id now

/-- A concrete critical running operation, for witnesses. -/
def criticalOp : OperationState :=
  { operation_id := "op1", name := "vent", status := OperationStatus.running,
    created_at := 0, started_at := some 1, paused_at := none, completed_at := none,
    result := none, error := none, progress := 0,
    metadata := [("patient_id", "p9"), ("operation_type", "life_support")] }

/-- A concrete one-operation manager state, for witnesses. -/
def criticalOps : OperationsMap := [("op1", criticalOp)]

/-! ## state_machine.py -/

/-- `MedicalState` enum from state_machine.py. -/
inductive MedicalState
  | patient_intake
  | triage
  | initial_assessment
  | diagnosis
  | treatment_planning
  | treatment
  | monitoring
  | follow_up
  | discharge
  | emergency
deriving DecidableEq

/-- Values stored in a transition context dictionary. -/
inductive CtxVal
  | str : String → CtxVal
  | state : MedicalState → CtxVal
  | time : Nat → CtxVal
  | flag : Bool → CtxVal
deriving DecidableEq

/-- A Python dict used as a transition context, as an association list. -/
abbrev Context := List (String × CtxVal)

/-- Python dict assignment `ctx[k] = v` (overwrite or insert). -/
def ctxSet (ctx : Context) (k : String) (v : CtxVal) : Context :=
  ctx.filter (fun p => p.1 != k) ++ [(k, v)]

/-- `Transition` from state_machine.py.  The guard `condition` and the side
effect `action` are modelled by their boolean outcome on a context; the code
catches exceptions inside `can_transition` / `execute_action` and converts
them to `False`, so a total boolean function is faithful. -/
structure Transition where
  from_state : MedicalState
  to_state : MedicalState
  condition : Context → Bool
  action : Option (Context → Bool)
  transition_id : String

/-- One entry of `state_history` as appended by `transition_to`. -/
structure HistoryEntry where
  from_state : MedicalState
  to_state : MedicalState
  timestamp : Nat
  context : Context
  transition_id : String

/-- `MedicalStateMachine` from state_machine.py. -/
structure MedicalStateMachine where
  patient_id : String
  current_state : MedicalState
  transitions : List (MedicalState × List Transition)
  state_history : List HistoryEntry

/-- `Transition.can_transition`. -/
def Transition.can_transition (t : Transition) (ctx : Context) : Bool :=
  t.condition ctx

/-- `Transition.execute_action`: a missing action counts as success. -/
def Transition.execute_action (t : Transition) (ctx : Context) : Bool :=
  match t.action with
  | none => true
  | some a => a ctx

/-- `self.transitions[from_state].append(t)`, creating the bucket if absent. -/
def bucketAppend (l : List (MedicalState × List Transition)) (k : MedicalState)
    (t : Transition) : List (MedicalState × List Transition) :=
  match l with
  | [] => [(k, [t])]
  | (k', ts) :: rest =>
    if k' = k then (k', ts ++ [t]) :: rest else (k', ts) :: bucketAppend rest k t

/-- `MedicalStateMachine.add_transition` (the fresh transition id is passed
in, standing for the generated uuid). -/
def add_transition (m : MedicalStateMachine) (a b : MedicalState)
    (cond : Context → Bool) (act : Option (Context → Bool)) (tid : String) :
    MedicalStateMachine :=
  let t : Transition :=
    { from_state := a, to_state := b, condition := cond, action := act,
      transition_id := tid }
  { m with transitions := bucketAppend m.transitions a t }

/-- The rule bucket for the current state (`[]` when the state has no entry,
matching the `not in self.transitions` guards). -/
def transitionBucket (m : MedicalStateMachine) : List Transition :=
  match m.transitions.lookup m.current_state with
  | none => []
  | some ts => ts

/-- The context enrichment performed by `can_transition_to`: it writes
`from_state`, `to_state` and `patient_id` into the caller's context dict. -/
def checkContext (m : MedicalStateMachine) (target : MedicalState)
    (ctx : Context) : Context :=
  ctxSet (ctxSet (ctxSet ctx "from_state" (CtxVal.state m.current_state))
    "to_state" (CtxVal.state target)) "patient_id" (CtxVal.str m.patient_id)

/-- `MedicalStateMachine.can_transition_to`. -/
def can_transition_to (m : MedicalStateMachine) (target : MedicalState)
    (ctx : Context) : Bool :=
  (transitionBucket m).any
    (fun t => t.to_state == target && t.can_transition (checkContext m target ctx))

/-- The `transition_context` dict built inside `transition_to`: the context
(already enriched in place by the `can_transition_to` call) merged again with
`from_state`/`to_state`/`patient_id` plus a `timestamp`. -/
def transitionContext (m : MedicalStateMachine) (target : MedicalState)
    (ctx : Context) (now : Nat) : Context :=
  ctxSet (checkContext m target (checkContext m target ctx)) "timestamp" (CtxVal.time now)

/-- The first rule in the bucket whose target and condition match — the rule
the `for` loop in `transition_to` commits to. -/
def findMatchingTransition (ts : List Transition) (target : MedicalState)
    (tc : Context) : Option Transition :=
  ts.find? (fun t => t.to_state == target && t.can_transition tc)

/-- `MedicalStateMachine.transition_to`. -/
def transition_to (m : MedicalStateMachine) (target : MedicalState)
    (ctx : Context) (now : Nat) : Bool × MedicalStateMachine :=
  if can_transition_to m target ctx then
    let tc := transitionContext m target ctx now
    match findMatchingTransition (transitionBucket m) target tc with
    | none => (false, m)
    | some t =>
      if t.execute_action tc then
        (true, { m with
          current_state := target,
          state_history := m.state_history ++
            [{ from_state := m.current_state, to_state := target, timestamp := now,
               context := tc.filter (fun p => p.1 != "patient_id"),
               transition_id := t.transition_id }] })
      else (false, m)
  else (false, m)

/-- The pre-registered standard transition pairs of
`_setup_default_transitions`. -/
def standardPairs : List (MedicalState × MedicalState) :=
  [(MedicalState.patient_intake, MedicalState.triage),
   (MedicalState.triage, MedicalState.initial_assessment),
   (MedicalState.initial_assessment, MedicalState.diagnosis),
   (MedicalState.diagnosis, MedicalState.treatment_planning),
   (MedicalState.treatment_planning, MedicalState.treatment),
   (MedicalState.treatment, MedicalState.monitoring),
   (MedicalState.monitoring, MedicalState.follow_up),
   (MedicalState.follow_up, MedicalState.discharge),
   (MedicalState.emergency, MedicalState.diagnosis),
   (MedicalState.emergency, MedicalState.treatment)]

/-- A fresh `MedicalStateMachine` before `_setup_default_transitions`. -/
def emptyMachine (pid : String) : MedicalStateMachine :=
  { patient_id := pid, current_state := MedicalState.patient_intake,
    transitions := [], state_history := [] }

/-- `MedicalStateMachine.__init__`: fresh machine with the default
transitions registered (every default rule has the always-true condition and
no action; ids stand for the generated uuids). -/
def mkMedicalStateMachine (pid : String) : MedicalStateMachine :=
  (standardPairs.zip (List.range standardPairs.length)).foldl
    (fun acc p => add_transition acc p.1.1 p.1.2 (fun _ => true) none (Nat.repr p.2))
    (emptyMachine pid)

/-- C7 scenario machine. -/
def c7machine : MedicalStateMachine := mkMedicalStateMachine "patient-1"

/-- C7 first step: `transition_to(triage)` on the fresh machine. -/
def c7step1 : Bool × MedicalStateMachine :=
  transition_to c7machine MedicalState.triage [] 0

/-- C7 second step: `transition_to(discharge)` immediately afterwards. -/
def c7step2 : Bool × MedicalStateMachine :=
  transition_to c7step1.2 MedicalState.discharge [] 1

/-! ## workflow_engine.py -/

deriving instance DecidableEq for Except

/-- `WorkflowStatus` enum from workflow_engine.py. -/
inductive WorkflowStatus
  | created
  | running
  | paused
  | completed
  | failed
  | cancelled
deriving DecidableEq

/-- `TaskStatus` enum from workflow_engine.py. -/
inductive TaskStatus
  | pending
  | running
  | completed
  | failed
  | skipped
deriving DecidableEq

/-- `Task` from workflow_engine.py (named `WfTask` here because `Task` is a
core Lean name).  The task's callable is modelled by the outcome it produces
when invoked (`func`): a result, or the exception the engine captures into
`error`. -/
structure WfTask where
  task_id : String
  name : String
  func : Except String String
  dependencies : List String
  timeout : Nat
  status : TaskStatus
  result : Option String
  error : Option String
  started_at : Option Nat
  completed_at : Option Nat
deriving DecidableEq

/-- `Workflow` from workflow_engine.py; `tasks` is the task-id → Task dict. -/
structure Workflow where
  workflow_id : String
  name : String
  tasks : List (String × WfTask)
  status : WorkflowStatus
  created_at : Nat
  started_at : Option Nat
  completed_at : Option Nat
deriving DecidableEq

/-- The dependency check inside `Workflow.get_ready_tasks`: the dependency id
must name a task of the same workflow and that task must be completed. -/
def depCompleted (w : Workflow) (dep : String) : Bool :=
  match w.tasks.lookup dep with
  | none => false
  | some d => d.status == TaskStatus.completed

/-- `Workflow.get_ready_tasks`: pending tasks all of whose dependencies are
completed, in task-dict order. -/
def get_ready_tasks (w : Workflow) : List WfTask :=
  (w.tasks.map Prod.snd).filter
    (fun t => t.status == TaskStatus.pending && t.dependencies.all (depCompleted w))

/-- The view of a task that `get_ready_tasks` actually consults: its key in
the dict, its id, its status and its dependency ids. -/
def taskView (p : String × WfTask) : String × String × TaskStatus × List String :=
  (p.1, p.2.task_id, p.2.status, p.2.dependencies)

/-- `execute_single_task` inside `_execute_tasks_concurrently`: mark running,
invoke the callable, capture result or exception, mark completed/failed and
stamp the times. -/
def runTask (t : WfTask) (now : Nat) : WfTask :=
  match t.func with
  | Except.ok r =>
      { t with status := TaskStatus.completed, result := some r,
               started_at := some now, completed_at := some now }
  | Except.error e =>
      { t with status := TaskStatus.failed, error := some e,
               started_at := some now, completed_at := some now }

/-- `_execute_tasks_concurrently`: every ready task is executed; the batch is
modelled by its joint effect on the task dict. -/
def executeReady (w : Workflow) (ids : List String) (now : Nat) : Workflow :=
  let ts := w.tasks.map (fun p => if ids.contains p.1 then (p.1, runTask p.2 now) else p)
  { w with tasks := ts }

/-- The `pending_tasks` emptiness test of the scheduling loop. -/
def noPending (w : Workflow) : Bool :=
  (w.tasks.map Prod.snd).all (fun t => !(t.status == TaskStatus.pending))

/-- The `while workflow.status == RUNNING` scheduling loop of
`WorkflowEngine.execute_workflow`, with explicit fuel standing for the number
of loop iterations (the busy-poll branch that sleeps and re-polls consumes
fuel without progress, so a livelocked loop yields `none`). -/
def execLoop (now : Nat) : Nat → Workflow → Option (Bool × Workflow)
  | 0, _ => none
  | fuel+1, w =>
    if w.status == WorkflowStatus.running then
      let ready := get_ready_tasks w
      if ready.isEmpty then
        if noPending w then
          some (true, { w with status := WorkflowStatus.completed, completed_at := some now })
        else execLoop now fuel w
      else execLoop now fuel (executeReady w (ready.map WfTask.task_id) now)
    else some (true, w)

/-- The engine's `self.workflows` dict. -/
abbrev WorkflowsMap := List (String × Workflow)

/-- Python dict assignment `self.workflows[id] = w` for an existing key. -/
def wfUpdate (ws : WorkflowsMap) (id : String) (v : Workflow) : WorkflowsMap :=
  ws.map (fun p => if p.1 = id then (id, v) else p)

/-- `WorkflowEngine.execute_workflow`.  The `try/except` around the loop can
never fire in this embedding because every operation of the loop body is
total — faithful to the code, which catches task exceptions inside
`execute_single_task` and gathers with `return_exceptions=True` — so the
`workflow.status = FAILED; return False` branch is unreachable. -/
def execute_workflow (ws : WorkflowsMap) (id : String) (now : Nat) (fuel : Nat) :
    Option (Bool × WorkflowsMap) :=
  match ws.lookup id with
  | none => some (false, ws)
  | some w =>
    let w1 := { w with status := WorkflowStatus.running, started_at := some now }
    match execLoop now fuel w1 with
    | none => none
    | some (b, w2) => some (b, wfUpdate ws id w2)

/-- A concrete dependency-free task, for witnesses. -/
def wfTaskA : WfTask :=
  { task_id := "t1", name := "A", func := Except.ok "ra", dependencies := [],
    timeout := 300, status := TaskStatus.pending, result := none, error := none,
    started_at := none, completed_at := none }

/-- A concrete one-task workflow, for witnesses. -/
def wfDemo : Workflow :=
  { workflow_id := "w1", name := "demo", tasks := [("t1", wfTaskA)],
    status := WorkflowStatus.created, created_at := 0, started_at := none,
    completed_at := none }

/-- A concrete one-workflow engine state, for witnesses. -/
def wfEngine : WorkflowsMap := [("w1", wfDemo)]

/-- The same workflow with unrelated task fields changed (same view), for the
readiness-determinism witness. -/
def wfDemo2 : Workflow :=
  { wfDemo with tasks := [("t1", { wfTaskA with name := "A2", result := some "x" })] }

/-! ## message_bus.py -/

/-- `MessageBusChannel` enum from message_bus.py. -/
inductive MessageBusChannel
  | triage
  | diagnosis
  | treatment
  | research
  | system
  | emergency
deriving DecidableEq

/-- The iteration order of the `MessageBusChannel` enum. -/
def allChannels : List MessageBusChannel :=
  [MessageBusChannel.triage, MessageBusChannel.diagnosis, MessageBusChannel.treatment,
   MessageBusChannel.research, MessageBusChannel.system, MessageBusChannel.emergency]

/-- A message content dict (string-keyed; values abstracted to strings,
presence of keys is all the modelled code inspects). -/
abbrev BusContent := List (String × String)

/-- `BusMessage` from message_bus.py. -/
structure BusMessage where
  message_id : String
  channel : MessageBusChannel
  content : BusContent
  sender_id : String
  timestamp : Nat
  priority : Int
  expiration : Option Nat
  correlation_id : Option String
  reply_to : Option String
deriving DecidableEq

/-- `MessageFilter` from message_bus.py. -/
structure MessageFilter where
  channel : Option MessageBusChannel
  sender_id : Option String
  content_filter : Option (BusContent → Bool)

/-- `MessageFilter.matches`: channel, sender and content predicate must all
accept (absent parts always accept). -/
def MessageFilter.matches (f : MessageFilter) (m : BusMessage) : Bool :=
  (match f.channel with
   | some c => m.channel == c
   | none => true) &&
  (match f.sender_id with
   | some s => m.sender_id == s
   | none => true) &&
  (match f.content_filter with
   | some p => p m.content
   | none => true)

/-- `MessageSubscriber` from message_bus.py: only the id, the `active` flag
and the heartbeat are state; the handler lives outside the modelled state
and delivery is reported as the list of notified subscriber ids.  Note the
subscription filter is NOT stored on the subscriber. -/
structure MessageSubscriber where
  subscriber_id : String
  active : Bool
  last_heartbeat : Nat
deriving DecidableEq

/-- `MessageSubscriber.is_active`: the code computes
`(datetime.now() - last_heartbeat).seconds < timeout_seconds`, and
`timedelta.seconds` is the seconds component after whole days are split off,
i.e. the elapsed whole seconds modulo 86400 — not the total elapsed
seconds.  The default timeout is 300. -/
def MessageSubscriber.is_active (s : MessageSubscriber) (now : Nat)
    (timeout_seconds : Nat) : Bool :=
  (now - s.last_heartbeat) % 86400 < timeout_seconds

/-- `MessageBus` state from message_bus.py: retained messages and subscriber
lists per channel, plus the internal publish queue. -/
structure MessageBus where
  channels : List (MessageBusChannel × List BusMessage)
  subscribers : List (MessageBusChannel × List MessageSubscriber)
  message_queue : List BusMessage
deriving DecidableEq

/-- `MessageBus.__init__`: every channel present with empty lists. -/
def mkBus : MessageBus :=
  { channels := allChannels.map (fun c => (c, [])),
    subscribers := allChannels.map (fun c => (c, [])),
    message_queue := [] }

/-- `MessageBus.subscribe`: register a fresh subscriber (id passed in for the
generated uuid) on the filter's channel, or on every channel when the filter
has none.  Only `filter_obj.channel` is consulted; the sender and content
parts of the filter are dropped. -/
def subscribe (bus : MessageBus) (filter_obj : MessageFilter)
    (newId : String) (now : Nat) : String × MessageBus :=
  let chans := match filter_obj.channel with
    | some c => [c]
    | none => allChannels
  let subs := bus.subscribers.map
    (fun p => if chans.contains p.1
      then (p.1, p.2 ++ [{ subscriber_id := newId, active := true, last_heartbeat := now }])
      else p)
  (newId, { bus with subscribers := subs })

/-- `MessageBus.unsubscribe`: drop the id from every channel's list. -/
def unsubscribe (bus : MessageBus) (sid : String) : MessageBus :=
  let subs := bus.subscribers.map
    (fun p => (p.1, p.2.filter (fun s => s.subscriber_id != sid)))
  { bus with subscribers := subs }

/-- `MessageBus.publish`: build the message and enqueue it on the internal
queue (the background processor delivers it later). -/
def publish (bus : MessageBus) (channel : MessageBusChannel) (content : BusContent)
    (sender_id : String) (priority : Int) (expiration : Option Nat)
    (correlation_id reply_to : Option String) (msgId : String) (now : Nat) :
    String × MessageBus :=
  let m : BusMessage :=
    { message_id := msgId, channel := channel, content := content,
      sender_id := sender_id, timestamp := now, priority := priority,
      expiration := expiration, correlation_id := correlation_id,
      reply_to := reply_to }
  (msgId, { bus with message_queue := bus.message_queue ++ [m] })

/-- The subscriber list of one channel. -/
def channelSubs (bus : MessageBus) (c : MessageBusChannel) : List MessageSubscriber :=
  match bus.subscribers.lookup c with
  | none => []
  | some l => l

/-- `MessageBus._publish_to_channel`: append the message to the channel's
retained list and notify every subscriber of the channel that is flagged
active and passes `is_active` — without consulting any message filter.
Returns the ids of the notified subscribers (whose handlers are invoked)
and the updated bus (notified subscribers get a heartbeat refresh). -/
def publishToChannel (bus : MessageBus) (m : BusMessage) (now : Nat) :
    List String × MessageBus :=
  let delivered := ((channelSubs bus m.channel).filter
      (fun s => s.active && s.is_active now 300)).map
    (fun s => s.subscriber_id)
  let chans := bus.channels.map
    (fun p => if p.1 = m.channel then (p.1, p.2 ++ [m]) else p)
  let subs := bus.subscribers.map
    (fun p => if p.1 = m.channel
      then (p.1, p.2.map (fun s => if s.active && s.is_active now 300
        then { s with last_heartbeat := now } else s))
      else p)
  (delivered, { bus with channels := chans, subscribers := subs })

/-- `MessageBus._cleanup_inactive_subscribers`: keep, on every channel, only
subscribers passing `is_active` (with the default 300-second window). -/
def cleanup_inactive_subscribers (bus : MessageBus) (now : Nat) : MessageBus :=
  let subs := bus.subscribers.map
    (fun p => (p.1, p.2.filter (fun s => s.is_active now 300)))
  { bus with subscribers := subs }

/-- Python dict assignment `content[k] = v` for message content. -/
def contentSet (c : BusContent) (k v : String) : BusContent :=
  c.filter (fun p => p.1 != k) ++ [(k, v)]

/-- `MessageBus.request_reply`.  The fresh correlation id, the temporary
subscriber id and the request message id are passed in for the generated
uuids.  `reply` is the outcome of awaiting the reply future up to the
timeout: `some content` when a matching reply arrived in time, `none` on
`asyncio.TimeoutError`.  Both the return path and the timeout path run the
`finally` block, which unsubscribes the temporary subscriber. -/
def request_reply (bus : MessageBus) (channel : MessageBusChannel)
    (content : BusContent) (sender_id tempId corrId msgId : String) (now : Nat)
    (reply : Option BusContent) : Option BusContent × MessageBus :=
  let fobj : MessageFilter :=
    { channel := some channel, sender_id := none,
      content_filter := some (fun c => c.lookup "correlation_id" == some corrId) }
  let bus1 := (subscribe bus fobj tempId now).2
  let reqContent := contentSet (contentSet content "correlation_id" corrId)
    "message_type" "request"
  let bus2 := (publish bus1 channel reqContent sender_id 1 none none none msgId now).2
  let result := reply
  let bus3 := unsubscribe bus2 tempId
  (result, bus3)

/-- One entry of the `MedicalMessageBus.audit_log`. -/
structure AuditEntry where
  log_id : String
  message_id : String
  channel : MessageBusChannel
  sender_id : String
  timestamp : Nat
  has_patient_data : Bool
  message_type : String
  compliance_check : Bool
deriving DecidableEq

/-- The entry `_log_medical_message` builds from a publish. -/
def mkAuditEntry (logId msgId : String) (channel : MessageBusChannel)
    (content : BusContent) (sender_id : String) (now : Nat) : AuditEntry :=
  { log_id := logId, message_id := msgId, channel := channel,
    sender_id := sender_id, timestamp := now,
    has_patient_data := (content.lookup "patient_id").isSome
      || (content.lookup "patient_context").isSome,
    message_type := (content.lookup "message_type").getD "standard",
    compliance_check := (content.lookup "compliance_metadata").isSome }

/-- `MedicalMessageBus._log_medical_message`, restricted to its effect on
`audit_log`: append the entry, then if the length exceeds 10000 keep only
the last 5000 entries (`audit_log[-5000:]`). -/
def log_medical_message (log : List AuditEntry) (e : AuditEntry) :
    List AuditEntry :=
  let l := log ++ [e]
  if 10000 < l.length then l.drop (l.length - 5000) else l

/-- A filter demanding sender "alice" on the triage channel, for the C5
failing input. -/
def filterAlice : MessageFilter :=
  { channel := some MessageBusChannel.triage, sender_id := some "alice",
    content_filter := none }

/-- A bus holding one subscriber registered through `filterAlice`. -/
def busWithSub1 : MessageBus := (subscribe mkBus filterAlice "sub1" 0).2

/-- A triage message from sender "bob" (rejected by `filterAlice`). -/
def msgFromBob : BusMessage :=
  { message_id := "m1", channel := MessageBusChannel.triage, content := [],
    sender_id := "bob", timestamp := 0, priority := 1, expiration := none,
    correlation_id := none, reply_to := none }

/-- A subscriber whose heartbeat is far older than the liveness window, for
the C9 failing input. -/
def staleSub : MessageSubscriber :=
  { subscriber_id := "s1", active := true, last_heartbeat := 0 }

/-- A bus holding only the stale subscriber on the triage channel. -/
def staleBus : MessageBus :=
  let subs := mkBus.subscribers.map
    (fun p => if p.1 = MessageBusChannel.triage then (p.1, [staleSub]) else p)
  { mkBus with subscribers := subs }

/-- A pre-existing subscriber, for the C6 witness bus. -/
def otherSub : MessageSubscriber :=
  { subscriber_id := "other", active := true, last_heartbeat := 0 }

/-- A bus holding `otherSub` on the triage channel. -/
def busWithOther : MessageBus :=
  let subs := mkBus.subscribers.map
    (fun p => if p.1 = MessageBusChannel.triage then (p.1, [otherSub]) else p)
  { mkBus with subscribers := subs }

/-- A concrete audit entry, for the C10 witness. -/
def auditE0 : AuditEntry :=
  { log_id := "l0", message_id := "m0", channel := MessageBusChannel.system,
    sender_id := "sys", timestamp := 0, has_patient_data := false,
    message_type := "standard", compliance_check := true }

/-! ## Theorems about pause_resume.py -/

/-- C1: a pause request against a registered running operation whose
`operation_type` metadata is in the critical set returns false and leaves the
whole operations map (hence every field of the operation) unchanged. -/
theorem pause_medical_critical_rejected
    (ops : OperationsMap) (id : String) (now : Nat) (op : OperationState) (ty : String)
    (hop : ops.lookup id = some op)
    (hty : op.metadata.lookup "operation_type" = some ty)
    (hcrit : ty ∈ criticalTypes)
    (hrun : op.status = OperationStatus.running) :
    pause_medical_operation ops id now = (false, ops) := by
  unfold pause_medical_operation
  rw [hop]
  simp only [hty]
  have hc : criticalTypes.contains ty = true := List.elem_eq_true_of_mem hcrit
  simp only [hc]
  simp

/-- Witness for C1 at a concrete manager state. -/
theorem pause_medical_critical_rejected_witness :
    pause_medical_operation criticalOps "op1" 5 = (false, criticalOps) :=
  pause_medical_critical_rejected criticalOps "op1" 5 criticalOp "life_support"
    (by decide) (by decide) (by decide) (by decide)

/-- C8: the detached execution body finalizes unconditionally once the target
callable finishes: on normal return it sets result, progress 1.0, status
completed and completed_at; on exception it sets error and status failed; and
the final status is the same whatever status (e.g. paused or cancelled, set by
a concurrent pause/cancel) the operation held when the body resumed, so the
operation always ends completed or failed. -/
theorem execute_operation_body_overwrites
    (op : OperationState) (r e : String) (now : Nat) :
    executeOperationBody op (Except.ok r) now
      = { op with result := some r, progress := 1, status := OperationStatus.completed,
                  completed_at := some now } ∧
    executeOperationBody op (Except.error e) now
      = { op with error := some e, status := OperationStatus.failed } ∧
    (∀ s : OperationStatus,
      (executeOperationBody { op with status := s } (Except.ok r) now).status
        = OperationStatus.completed ∧
      (executeOperationBody { op with status := s } (Except.error e) now).status
        = OperationStatus.failed) :=
  ⟨rfl, rfl, fun _ => ⟨rfl, rfl⟩⟩

/-! ## Theorems about state_machine.py -/

/-- Filtering out a key makes its lookup fail (privacy of the logged
context). -/
theorem lookup_filter_ne (l : List (String × CtxVal)) (k : String) :
    (l.filter (fun p => p.1 != k)).lookup k = none := by
  induction l with
  | nil => rfl
  | cons a l ih =>
    by_cases h : a.1 = k
    · simp [List.filter_cons, h, ih]
    · have hb : (a.1 != k) = true := by simp [h]
      have hk : (k == a.1) = false := by
        simp [Ne.symm h]
      cases a with
      | mk a1 a2 =>
        simp only [List.filter_cons]
        simp only [hb, if_true]
        simp only [List.lookup]
        simp only [hk] at *
        simp [List.lookup, hk, ih]

/-- If every rule towards the target rejects, `can_transition_to` is false. -/
theorem can_transition_to_eq_false
    (m : MedicalStateMachine) (target : MedicalState) (ctx : Context)
    (hall : ∀ t ∈ transitionBucket m, t.to_state = target →
      t.can_transition (checkContext m target ctx) = false) :
    can_transition_to m target ctx = false := by
  unfold can_transition_to
  rw [List.any_eq_false]
  intro t ht
  by_cases hto : t.to_state = target
  · simp [hto, hall t ht hto]
  · simp [hto]

/-- `transition_to` failure paths leave the machine unchanged. -/
theorem transition_to_false_unchanged (m : MedicalStateMachine)
    (target : MedicalState) (ctx : Context) (now : Nat) :
    (transition_to m target ctx now).1 = false →
    (transition_to m target ctx now).2 = m := by
  simp only [transition_to]
  split
  · split
    · intro _; rfl
    · split
      · intro h; simp at h
      · intro _; rfl
  · intro _; rfl

/-- `transition_to` success path: state committed, one history entry, no
patient id in the logged context. -/
theorem transition_to_success_effects (m : MedicalStateMachine)
    (target : MedicalState) (ctx : Context) (now : Nat) :
    (transition_to m target ctx now).1 = true →
    (transition_to m target ctx now).2.current_state = target ∧
    ∃ e, (transition_to m target ctx now).2.state_history = m.state_history ++ [e] ∧
      e.context.lookup "patient_id" = none := by
  simp only [transition_to]
  split
  · split
    · intro h; simp at h
    · split
      · intro _
        exact ⟨rfl, _, rfl, lookup_filter_ne _ _⟩
      · intro h; simp at h
  · intro h; simp at h

/-- When every rule towards the target rejects, `transition_to` fails and
changes nothing. -/
theorem transition_to_no_rule (m : MedicalStateMachine) (target : MedicalState)
    (ctx : Context) (now : Nat)
    (hall : ∀ t ∈ transitionBucket m, t.to_state = target →
      t.can_transition (checkContext m target ctx) = false) :
    transition_to m target ctx now = (false, m) := by
  have hc := can_transition_to_eq_false m target ctx hall
  simp only [transition_to, hc]
  simp

/-- When the matched rule's action returns false, `transition_to` fails and
changes nothing. -/
theorem transition_to_action_false (m : MedicalStateMachine)
    (target : MedicalState) (ctx : Context) (now : Nat) (t : Transition)
    (hfind : findMatchingTransition (transitionBucket m) target
      (transitionContext m target ctx now) = some t)
    (hact : t.execute_action (transitionContext m target ctx now) = false) :
    transition_to m target ctx now = (false, m) := by
  simp only [transition_to]
  by_cases hcan : can_transition_to m target ctx = true
  · rw [if_pos hcan, hfind]
    simp [hact]
  · rw [if_neg hcan]

/-- When the matched rule's action succeeds, `transition_to` returns true. -/
theorem transition_to_success (m : MedicalStateMachine)
    (target : MedicalState) (ctx : Context) (now : Nat) (t : Transition)
    (hcan : can_transition_to m target ctx = true)
    (hfind : findMatchingTransition (transitionBucket m) target
      (transitionContext m target ctx now) = some t)
    (hact : t.execute_action (transitionContext m target ctx now) = true) :
    (transition_to m target ctx now).1 = true := by
  simp only [transition_to]
  rw [if_pos hcan, hfind]
  simp [hact]

/-- C2: `transition_to` leaves the machine (state and history) unchanged on
every failing path; on success it sets `current_state` to the target and
appends exactly one history entry whose logged context has no `patient_id`
key; it fails when no rule towards the target has a true condition, or when
the matched rule's action returns false; and it returns true when the
matched rule's condition holds and its action succeeds. -/
theorem transition_to_spec (m : MedicalStateMachine) (target : MedicalState)
    (ctx : Context) (now : Nat) :
    ((transition_to m target ctx now).1 = false →
      (transition_to m target ctx now).2 = m) ∧
    ((transition_to m target ctx now).1 = true →
      (transition_to m target ctx now).2.current_state = target ∧
      ∃ e, (transition_to m target ctx now).2.state_history = m.state_history ++ [e] ∧
        e.context.lookup "patient_id" = none) ∧
    ((∀ t ∈ transitionBucket m, t.to_state = target →
        t.can_transition (checkContext m target ctx) = false) →
      transition_to m target ctx now = (false, m)) ∧
    (∀ t, findMatchingTransition (transitionBucket m) target
        (transitionContext m target ctx now) = some t →
      t.execute_action (transitionContext m target ctx now) = false →
      transition_to m target ctx now = (false, m)) ∧
    (∀ t, can_transition_to m target ctx = true →
      findMatchingTransition (transitionBucket m) target
        (transitionContext m target ctx now) = some t →
      t.execute_action (transitionContext m target ctx now) = true →
      (transition_to m target ctx now).1 = true) :=
  ⟨transition_to_false_unchanged m target ctx now,
   transition_to_success_effects m target ctx now,
   transition_to_no_rule m target ctx now,
   fun t hf ha => transition_to_action_false m target ctx now t hf ha,
   fun t hc hf ha => transition_to_success m target ctx now t hc hf ha⟩

/-- Witness for C2: on a fresh default machine the intake→triage rule is
matched, its (trivial) action succeeds, and the call returns true. -/
theorem transition_to_spec_witness :
    (transition_to (mkMedicalStateMachine "p2") MedicalState.triage [] 3).1 = true := by
  have h := transition_to_spec (mkMedicalStateMachine "p2") MedicalState.triage [] 3
  exact h.2.2.2.2
    { from_state := MedicalState.patient_intake, to_state := MedicalState.triage,
      condition := fun _ => true, action := none, transition_id := "0" }
    (by decide) rfl rfl

/-- C7: on a fresh machine with the pre-registered standard transitions,
`transition_to(triage)` succeeds and history has length 1, and an immediate
`transition_to(discharge)` fails with the history length staying 1. -/
theorem fresh_machine_triage_then_discharge :
    c7step1.1 = true ∧ c7step1.2.state_history.length = 1 ∧
    c7step2.1 = false ∧ c7step2.2.state_history.length = 1 :=
  ⟨rfl, rfl, rfl, rfl⟩

/-! ## Theorems about workflow_engine.py -/

/-- Executing a ready batch never touches the workflow status. -/
theorem executeReady_status (w : Workflow) (ids : List String) (now : Nat) :
    (executeReady w ids now).status = w.status := rfl

/-- Every terminating run of the scheduling loop on a running workflow
returns true with the workflow completed. -/
theorem execLoop_completes (now : Nat) :
    ∀ (fuel : Nat) (w : Workflow) (b : Bool) (w2 : Workflow),
      w.status = WorkflowStatus.running →
      execLoop now fuel w = some (b, w2) →
      b = true ∧ w2.status = WorkflowStatus.completed := by
  intro fuel
  induction fuel with
  | zero =>
    intro w b w2 _ h
    cases h
  | succ n ih =>
    intro w b w2 hw h
    unfold execLoop at h
    rw [hw] at h
    simp only [beq_self_eq_true, if_true] at h
    by_cases hr : (get_ready_tasks w).isEmpty
    · rw [if_pos hr] at h
      by_cases hp : noPending w = true
      · rw [if_pos hp] at h
        injection h with h1
        injection h1 with hb hw2
        subst hb
        subst hw2
        exact ⟨rfl, rfl⟩
      · rw [if_neg hp] at h
        exact ih w b w2 hw h
    · rw [if_neg hr] at h
      have hs : (executeReady w ((get_ready_tasks w).map WfTask.task_id) now).status
          = WorkflowStatus.running := by
        rw [executeReady_status]
        exact hw
      exact ih _ b w2 hs h

/-- Updating an existing key makes its lookup return the new value. -/
theorem lookup_wfUpdate (ws : WorkflowsMap) (id : String) (w v : Workflow)
    (h : ws.lookup id = some w) : (wfUpdate ws id v).lookup id = some v := by
  induction ws with
  | nil => cases h
  | cons a rest ih =>
    obtain ⟨k, x⟩ := a
    simp only [wfUpdate, List.map_cons]
    by_cases hk : k = id
    · subst hk
      have hc : ((k, x).1 = k) := rfl
      rw [if_pos hc]
      simp [List.lookup]
    · have hc : ¬ ((k, x).1 = id) := hk
      rw [if_neg hc]
      have hne : (id == k) = false := by simp [Ne.symm hk]
      simp only [List.lookup, hne] at h ⊢
      exact ih h

/-- C3: for a workflow known to the engine, every return of
`execute_workflow` is `true` with the workflow completed (every task
terminal, none pending); the only other conceivable exit — `false` with the
workflow marked failed — is the `except` branch, which no operation of the
modelled scheduling loop can trigger since task exceptions are captured
inside the tasks themselves. -/
theorem execute_workflow_terminal (ws : WorkflowsMap) (id : String)
    (now fuel : Nat) (w : Workflow)
    (hw : ws.lookup id = some w)
    (hterm : execute_workflow ws id now fuel ≠ none) :
    ∃ ws2, execute_workflow ws id now fuel = some (true, ws2) ∧
      ∃ w2, ws2.lookup id = some w2 ∧ w2.status = WorkflowStatus.completed := by
  unfold execute_workflow at hterm ⊢
  simp only [hw] at hterm ⊢
  cases hl : execLoop now fuel
      { w with status := WorkflowStatus.running, started_at := some now } with
  | none =>
    rw [hl] at hterm
    exact absurd rfl hterm
  | some p =>
    obtain ⟨b, w2⟩ := p
    obtain ⟨hb, hw2⟩ := execLoop_completes now fuel _ b w2 rfl hl
    subst hb
    exact ⟨wfUpdate ws id w2, rfl, w2, lookup_wfUpdate ws id w w2 hw, hw2⟩

/-- Witness for C3: a one-task workflow runs to completion in three loop
iterations. -/
theorem execute_workflow_terminal_witness :
    ∃ ws2, execute_workflow wfEngine "w1" 0 3 = some (true, ws2) ∧
      ∃ w2, ws2.lookup "w1" = some w2 ∧ w2.status = WorkflowStatus.completed :=
  execute_workflow_terminal wfEngine "w1" 0 3 wfDemo (by decide) (by decide)

/-- `List.all` respects pointwise equal predicates. -/
theorem all_congr_fun {α : Type} (l : List α) (f g : α → Bool)
    (h : ∀ x, f x = g x) : l.all f = l.all g := by
  induction l with
  | nil => rfl
  | cons a l ih => simp [List.all_cons, h a, ih]

/-- The dependency check succeeds exactly when the dependency id names a
completed task of the workflow. -/
theorem depCompleted_iff (w : Workflow) (dep : String) :
    depCompleted w dep = true ↔
    ∃ d, w.tasks.lookup dep = some d ∧ d.status = TaskStatus.completed := by
  unfold depCompleted
  cases h : w.tasks.lookup dep with
  | none => simp [h]
  | some d => simp [h]

/-- Task dicts with the same key/id/status/dependency view resolve every
dependency lookup to the same status. -/
theorem lookup_status_congr :
    ∀ (l1 l2 : List (String × WfTask)),
      l1.map taskView = l2.map taskView →
      ∀ dep, (l1.lookup dep).map WfTask.status = (l2.lookup dep).map WfTask.status := by
  intro l1
  induction l1 with
  | nil =>
    intro l2 h dep
    cases l2 with
    | nil => rfl
    | cons b l2 => simp at h
  | cons a l1 ih =>
    intro l2 h dep
    cases l2 with
    | nil => simp at h
    | cons b l2 =>
      simp only [List.map_cons, List.cons.injEq, taskView, Prod.mk.injEq] at h
      obtain ⟨⟨hk, _, hst, _⟩, hrest⟩ := h
      by_cases hd : dep = a.1
      · have hb1 : (dep == a.1) = true := by simp [hd]
        have hb2 : (dep == b.1) = true := by simp [hd, hk]
        obtain ⟨a1, at2⟩ := a
        obtain ⟨b1, bt2⟩ := b
        simp only [List.lookup, hb1, hb2] at *
        simp [hst]
      · have hb1 : (dep == a.1) = false := by simp [hd]
        have hb2 : (dep == b.1) = false := by rw [← hk]; simp [hd]
        obtain ⟨a1, at2⟩ := a
        obtain ⟨b1, bt2⟩ := b
        simp only [List.lookup, hb1, hb2] at *
        exact ih l2 hrest dep

/-- The readiness filter, projected to task ids, depends only on the task
view and the (pointwise equal) dependency predicate. -/
theorem ready_filter_congr :
    ∀ (l1 l2 : List (String × WfTask)) (f1 f2 : String → Bool),
      l1.map taskView = l2.map taskView → (∀ d, f1 d = f2 d) →
      ((l1.map Prod.snd).filter
          (fun t => t.status == TaskStatus.pending && t.dependencies.all f1)).map WfTask.task_id
        = ((l2.map Prod.snd).filter
          (fun t => t.status == TaskStatus.pending && t.dependencies.all f2)).map WfTask.task_id := by
  intro l1
  induction l1 with
  | nil =>
    intro l2 f1 f2 h hf
    cases l2 with
    | nil => rfl
    | cons b l2 => simp at h
  | cons a l1 ih =>
    intro l2 f1 f2 h hf
    cases l2 with
    | nil => simp at h
    | cons b l2 =>
      simp only [List.map_cons, List.cons.injEq, taskView, Prod.mk.injEq] at h
      obtain ⟨⟨_, hid, hst, hdep⟩, hrest⟩ := h
      have hcond : (a.2.status == TaskStatus.pending && a.2.dependencies.all f1)
          = (b.2.status == TaskStatus.pending && b.2.dependencies.all f2) := by
        rw [hst, hdep, all_congr_fun b.2.dependencies f1 f2 hf]
      simp only [List.map_cons, List.filter_cons]
      cases hc : (b.2.status == TaskStatus.pending && b.2.dependencies.all f2) with
      | false =>
        rw [hcond, hc]
        exact ih l2 f1 f2 hrest hf
      | true =>
        rw [hcond, hc]
        simp only [if_true, List.map_cons, hid]
        rw [ih l2 f1 f2 hrest hf]

/-- C4: a task is in the ready set exactly when it is a pending task of the
workflow all of whose dependency ids name a completed task of the same
workflow; and the ready set (as task ids) is a pure function of the task
statuses and the dependency graph, so recomputing it without a status
change yields the same set. -/
theorem get_ready_tasks_spec (w w2 : Workflow) (t : WfTask) :
    (t ∈ get_ready_tasks w ↔
      t ∈ w.tasks.map Prod.snd ∧ t.status = TaskStatus.pending ∧
      ∀ dep ∈ t.dependencies, ∃ d, w.tasks.lookup dep = some d ∧
        d.status = TaskStatus.completed) ∧
    (w.tasks.map taskView = w2.tasks.map taskView →
      (get_ready_tasks w).map WfTask.task_id = (get_ready_tasks w2).map WfTask.task_id) := by
  constructor
  · simp [get_ready_tasks, List.mem_filter, List.all_eq_true, depCompleted_iff,
      and_assoc]
  · intro h
    unfold get_ready_tasks
    refine ready_filter_congr w.tasks w2.tasks _ _ h ?_
    intro d
    have hs := lookup_status_congr w.tasks w2.tasks h d
    unfold depCompleted
    cases h1 : w.tasks.lookup d with
    | none =>
      cases h2 : w2.tasks.lookup d with
      | none => rfl
      | some d2 => rw [h1, h2] at hs; cases hs
    | some d1 =>
      cases h2 : w2.tasks.lookup d with
      | none => rw [h1, h2] at hs; cases hs
      | some d2 =>
        rw [h1, h2] at hs
        have hs2 : d1.status = d2.status := by
          simpa using hs
        simp [hs2]

/-- Witness for C4: two workflows agreeing on the readiness view but
differing in unrelated task fields produce the same ready ids. -/
theorem get_ready_tasks_spec_witness :
    (get_ready_tasks wfDemo).map WfTask.task_id
      = (get_ready_tasks wfDemo2).map WfTask.task_id :=
  (get_ready_tasks_spec wfDemo wfDemo2 wfTaskA).2 (by decide)

/-! ## Theorems about message_bus.py -/

/-- C5 (failing input): the subscription filter demands sender "alice", the
published triage message comes from "bob" and fails `MessageFilter.matches`,
yet `_publish_to_channel` invokes the subscriber's handler anyway — the
filter's sender/content parts are dropped at `subscribe` time and delivery
never consults them. -/
theorem message_filter_not_enforced :
    MessageFilter.matches filterAlice msgFromBob = false ∧
    "sub1" ∈ (publishToChannel busWithSub1 msgFromBob 0).1 := by
  constructor
  · rfl
  · decide

/-- C6: on every exit path of `request_reply` (reply received or timeout),
the temporary subscriber's id is absent from every channel's subscriber
list of the resulting bus, and a timeout yields `none` rather than an
exception. -/
theorem request_reply_cleanup (bus : MessageBus) (channel : MessageBusChannel)
    (content : BusContent) (sender_id tempId corrId msgId : String) (now : Nat)
    (reply : Option BusContent) :
    (∀ p ∈ (request_reply bus channel content sender_id tempId corrId msgId now reply).2.subscribers,
      ∀ s ∈ p.2, s.subscriber_id ≠ tempId) ∧
    (reply = none →
      (request_reply bus channel content sender_id tempId corrId msgId now reply).1 = none) := by
  constructor
  · intro p hp s hs
    simp only [request_reply, unsubscribe] at hp
    obtain ⟨q, hq, hpq⟩ := List.mem_map.mp hp
    rw [← hpq] at hs
    have hmem := List.of_mem_filter hs
    simpa using hmem
  · intro h
    simp [request_reply, h]

/-- Witness for C6: a timed-out request on a bus with one pre-existing
subscriber leaves that subscriber (not the temporary one) and returns
`none`. -/
theorem request_reply_cleanup_witness :
    otherSub.subscriber_id ≠ "tmp1" ∧
    (request_reply busWithOther MessageBusChannel.triage [] "me" "tmp1" "c1" "m1" 0 none).1
      = none := by
  have h := request_reply_cleanup busWithOther MessageBusChannel.triage [] "me"
    "tmp1" "c1" "m1" 0 none
  exact ⟨h.1 (MessageBusChannel.triage, [otherSub]) (by decide) otherSub (by decide),
    h.2 rfl⟩

/-- C9 (failing input): a subscriber silent for 86410 seconds — far beyond
the 300-second liveness window — still passes `is_active` (because
`timedelta.seconds` wraps at whole days) and survives the cleanup cycle on
the triage channel. -/
theorem stale_subscriber_survives_cleanup :
    86400 + 10 - staleSub.last_heartbeat > 300 ∧
    staleSub.is_active (86400 + 10) 300 = true ∧
    (cleanup_inactive_subscribers staleBus (86400 + 10)).subscribers.lookup
      MessageBusChannel.triage = some [staleSub] := by
  decide

/-- C10: starting from an audit log within the 10000-entry cap, one audited
publish keeps the log within the cap, and whenever the append pushes the
length beyond 10000 the log is cut to exactly the most recent 5000 entries
in their original order (a suffix of the appended log). -/
theorem audit_log_bounded (log : List AuditEntry) (e : AuditEntry)
    (hlen : log.length ≤ 10000) :
    (log_medical_message log e).length ≤ 10000 ∧
    (10000 < (log ++ [e]).length →
      log_medical_message log e = (log ++ [e]).drop ((log ++ [e]).length - 5000) ∧
      (log_medical_message log e).length = 5000) := by
  unfold log_medical_message
  by_cases h : 10000 < (log ++ [e]).length
  · rw [if_pos h]
    have hd : ((log ++ [e]).drop ((log ++ [e]).length - 5000)).length = 5000 := by
      rw [List.length_drop]
      omega
    exact ⟨by omega, fun _ => ⟨rfl, hd⟩⟩
  · rw [if_neg h]
    exact ⟨by omega, fun hc => absurd hc h⟩

/-- Witness for C10: appending to a log already at the cap trims it to
exactly 5000 entries. -/
theorem audit_log_bounded_witness :
    (log_medical_message (List.replicate 10000 auditE0) auditE0).length = 5000 := by
  have hlen : (List.replicate 10000 auditE0).length = 10000 :=
    List.length_replicate 10000 auditE0
  have h := audit_log_bounded (List.replicate 10000 auditE0) auditE0 (le_of_eq hlen)
  have h2 : (List.replicate 10000 auditE0 ++ [auditE0]).length = 10001 := by
    rw [List.length_append, hlen]
    rfl
  exact (h.2 (by rw [h2]; norm_num)).2
